import Mathlib

/-!
Verification development for the quiz-helper desktop assistant.

This file gives a shallow embedding, in Lean, of the request-orchestration and
response-normalization core of the repository:

* the Response Parser (`parseResponse` / `parseMCQ` / `parseWebDev` /
  `parsePython` / `parseText` in `src/electron/ProcessingHelper.ts`),
  including faithful models of the JavaScript regular expressions it uses
  (first-match scanning, greedy and lazy quantifier behaviour, the `/i` and
  `/m` flags, and capture-group truthiness checks);
* the Orchestrator pipelines (`processScreenshots`, `processInitialQuestion`,
  `processDebugging`) with their 3-attempt retry loop, retryable-error
  classification (HTTP 503 / `ERR_BAD_RESPONSE` / `ECONNRESET` / `ETIMEDOUT`),
  exponential backoff schedule, queue/view state effects, and the
  `if (!responseText && lastError) throw lastError` post-loop check;
* the configuration helper (`updateConfig`, `sanitizeGroqModel`,
  `sanitizeGeminiModel` in `src/electron/ConfigHelper.ts`);
* the Groq request construction (`callGroq`), which ignores its image
  argument and sends only prompt text plus OCR-extracted text.

Strings are modelled as `List Char`; the file systems, OCR engine and LLM
backends are modelled as explicit function parameters (oracles), so every
definition is executable and every concrete run can be evaluated.
-/

/-! ## Character classes and string scanning primitives

JavaScript regular expression character classes, restricted to the code
points that can actually occur in the patterns of the source.  `\s` is the
ECMAScript WhiteSpace plus LineTerminator set; `.` (without the `s` flag)
matches everything except LineTerminator; `$` with the `m` flag matches
before a LineTerminator or at the end of input.
-/

/-- LineTerminator code points of ECMAScript: LF, CR, LS, PS. -/
def isLineTerm (c : Char) : Bool :=
  c == '\n' || c == '\r' || c.toNat == 0x2028 || c.toNat == 0x2029

/-- ECMAScript `\s`: WhiteSpace and LineTerminator code points. -/
def isWsChar (c : Char) : Bool :=
  c == ' ' || c == '\t' || c == '\n' || c == '\r' ||
  c.toNat == 0x0b || c.toNat == 0x0c || c.toNat == 0xa0 ||
  c.toNat == 0x1680 || (0x2000 ≤ c.toNat && c.toNat ≤ 0x200a) ||
  c.toNat == 0x2028 || c.toNat == 0x2029 || c.toNat == 0x202f ||
  c.toNat == 0x205f || c.toNat == 0x3000 || c.toNat == 0xfeff

/-- Character class `[A-D]` under the `/i` flag (ASCII case folding). -/
def isLetterAD (c : Char) : Bool :=
  let l := c.toLower
  'a' ≤ l && l ≤ 'd'

/-- Character class `[a-z]` under the `/i` flag (ASCII case folding). -/
def isAlphaCI (c : Char) : Bool :=
  let l := c.toLower
  'a' ≤ l && l ≤ 'z'

/-- Character class `[a-z0-9]` under the `/i` flag (ASCII case folding). -/
def isAlnumCI (c : Char) : Bool :=
  isAlphaCI c || c.isDigit

/-- Does `pat` (given in lower case) lead `cs`, comparing case-insensitively? -/
def ciLeads : List Char → List Char → Bool
  | [], _ => true
  | _ :: _, [] => false
  | p :: ps, c :: cs => (c.toLower == p) && ciLeads ps cs

/-- Strip the case-insensitive pattern `pat` (given in lower case) off the
front of `cs`, returning the remainder. -/
def ciStrip : List Char → List Char → Option (List Char)
  | [], cs => some cs
  | _ :: _, [] => none
  | p :: ps, c :: cs => if c.toLower == p then ciStrip ps cs else none

/-- Split off a case-insensitive occurrence of `pat` at the front of `cs`,
keeping the original-case characters of the consumed span. -/
def ciSplit (pat cs : List Char) : Option (List Char × List Char) :=
  if ciLeads pat cs then some (cs.take pat.length, cs.drop pat.length) else none

/-- Does `pat` lead `cs` exactly (case-sensitively)? -/
def litLeads : List Char → List Char → Bool
  | [], _ => true
  | _ :: _, [] => false
  | p :: ps, c :: cs => (c == p) && litLeads ps cs

/-- Strip the exact pattern `pat` off the front of `cs`. -/
def litStrip : List Char → List Char → Option (List Char)
  | [], cs => some cs
  | _ :: _, [] => none
  | p :: ps, c :: cs => if c == p then litStrip ps cs else none

/-- Case-insensitive substring test, scanning left to right
(the model of `s.match(/pat/i) !== null` for a literal pattern). -/
def containsCI (pat : List Char) : List Char → Bool
  | [] => ciLeads pat []
  | c :: rest => ciLeads pat (c :: rest) || containsCI pat rest

/-- Case-sensitive substring test (the model of `String.prototype.includes`). -/
def containsLit (pat : List Char) : List Char → Bool
  | [] => litLeads pat []
  | c :: rest => litLeads pat (c :: rest) || containsLit pat rest

/-- Index of the first case-sensitive occurrence of `pat`
(the model of `String.prototype.indexOf`, with `none` for `-1`). -/
def indexOfLit (pat : List Char) : List Char → Option Nat
  | [] => if litLeads pat [] then some 0 else none
  | c :: rest =>
    if litLeads pat (c :: rest) then some 0
    else (indexOfLit pat rest).map (· + 1)

/-- First-match scanning: try the position matcher `f` at every start
position of the input, left to right, and return the first hit.  This is the
model of how a JavaScript regex engine runs an unanchored pattern. -/
def firstMatch {α : Type} (f : List Char → Option α) : List Char → Option α
  | [] => f []
  | c :: rest =>
    match f (c :: rest) with
    | some r => some r
    | none => firstMatch f rest

/-- Characters strictly before the first case-sensitive occurrence of `pat`
(the consumption of a lazy `[\s\S]*?` followed by the literal `pat`);
`none` when `pat` never occurs. -/
def upToLit (pat : List Char) : List Char → Option (List Char)
  | [] => if litLeads pat [] then some [] else none
  | c :: rest =>
    if litLeads pat (c :: rest) then some []
    else (upToLit pat rest).map (fun g => c :: g)

/-- Same as `upToLit` but case-insensitive. -/
def upToCI (pat : List Char) : List Char → Option (List Char)
  | [] => if ciLeads pat [] then some [] else none
  | c :: rest =>
    if ciLeads pat (c :: rest) then some []
    else (upToCI pat rest).map (fun g => c :: g)

/-- Characters up to and including the first case-insensitive occurrence of
`pat`, keeping the original case of the consumed span. -/
def throughCI (pat : List Char) : List Char → Option (List Char)
  | [] => if ciLeads pat [] then some [] else none
  | c :: rest =>
    if ciLeads pat (c :: rest) then some ((c :: rest).take pat.length)
    else (throughCI pat rest).map (fun g => c :: g)

/-- Remainder after the first occurrence of the single character `target`. -/
def afterChar (target : Char) : List Char → Option (List Char)
  | [] => none
  | c :: rest => if c == target then some rest else afterChar target rest

/-- The model of `String.prototype.trim`. -/
def trimL (l : List Char) : List Char :=
  ((l.dropWhile isWsChar).reverse.dropWhile isWsChar).reverse

/-! ## The MCQ extraction patterns of `parseMCQ`

`parseMCQ` tries four regular expressions in order; the first one that
matches anywhere in the response provides the capture groups.  A JavaScript
match result is an array whose entries `[1]`, `[2]`, `[3]` may be
`undefined`; we model that as `g1` plus two `Option` groups, and model
JavaScript string truthiness (`undefined` and `""` are both falsy) with
`optTruthy`. -/

structure MCQMatch where
  g1 : List Char
  g2 : Option (List Char)
  g3 : Option (List Char)
deriving DecidableEq, Repr

/-- JavaScript truthiness of a possibly-undefined capture group:
`undefined` and the empty string are falsy. -/
def optTruthy : Option (List Char) → Bool
  | none => false
  | some l => !l.isEmpty

def finalAnswerMarker : List Char := "final answer:".data

def optionWord : List Char := "option".data

/-- Greedy consumption of `(?:\s*,\s*[A-D])*` (under `/i`): repeatedly
parse optional whitespace, a comma, optional whitespace and a letter A-D,
returning the consumed characters and the remainder.  Each successful
iteration consumes at least two characters, so fuel `cs.length + 1` is
never exhausted. -/
def labelStarAux : Nat → List Char → List Char × List Char
  | 0, cs => ([], cs)
  | fuel + 1, cs =>
    let ws1 := cs.takeWhile isWsChar
    let r1 := cs.dropWhile isWsChar
    match r1 with
    | c1 :: r2 =>
      if c1 == ',' then
        let ws2 := r2.takeWhile isWsChar
        let r3 := r2.dropWhile isWsChar
        match r3 with
        | c2 :: r4 =>
          if isLetterAD c2 then
            let (consumed, rem) := labelStarAux fuel r4
            (ws1 ++ c1 :: (ws2 ++ c2 :: consumed), rem)
          else ([], cs)
        | [] => ([], cs)
      else ([], cs)
    | [] => ([], cs)

def labelStar (cs : List Char) : List Char × List Char :=
  labelStarAux (cs.length + 1) cs

/-- Whole-string match of `/^[A-D](?:\s*,\s*[A-D])*$/i`
(the check applied to the first capture in `parseMCQ`). -/
def labelListWhole (f : List Char) : Bool :=
  match f with
  | c :: rest => isLetterAD c && (labelStar rest).2.isEmpty
  | [] => false

/-- Whole-string match of `/^[A-D]$/i`. -/
def singleLetterWhole (f : List Char) : Bool :=
  match f with
  | [c] => isLetterAD c
  | _ => false

/-- Position matcher for pattern 1,
`/FINAL ANSWER:\s*([A-D](?:\s*,\s*[A-D])*)\s*(.*)$/im`.
After the literal marker, greedy `\s*` is deterministic because `[A-D]`
cannot match a whitespace character; the trailing `\s*(.*)$` always
succeeds, with `(.*)` taking the rest of the line after the maximal
whitespace run. -/
def tryP1 (cs : List Char) : Option MCQMatch :=
  match ciStrip finalAnswerMarker cs with
  | none => none
  | some r1 =>
    match r1.dropWhile isWsChar with
    | c :: rest =>
      if isLetterAD c then
        let (labels, r3) := labelStar rest
        let r4 := r3.dropWhile isWsChar
        some ⟨c :: labels, some (r4.takeWhile (fun ch => !(isLineTerm ch))), none⟩
      else none
    | [] => none

/-- Position matcher for pattern 2, `/FINAL ANSWER:\s*(.+?)$/im`.
Greedy `\s*` backtracks against lazy `(.+?)$`: the match starts at the
first character after the maximal whitespace run when one exists, and
otherwise at the last whitespace character that is not a line terminator
(then `(.+?)` captures exactly that character, since everything after it is
line terminators or end of input). -/
def tryP2 (cs : List Char) : Option MCQMatch :=
  match ciStrip finalAnswerMarker cs with
  | none => none
  | some r1 =>
    let ws := r1.takeWhile isWsChar
    let r2 := r1.dropWhile isWsChar
    match r2 with
    | _ :: _ => some ⟨r2.takeWhile (fun ch => !(isLineTerm ch)), none, none⟩
    | [] =>
      match ws.reverse.dropWhile isLineTerm with
      | c :: _ => some ⟨[c], none, none⟩
      | [] => none

/-- Shared tail of patterns 3 and 4:
`(?:\/([a-z]))?\)?\s*(.*)$` after the `([a-z0-9]+)` capture. -/
def numTail (g1 r3 : List Char) : MCQMatch :=
  let slash : Option (List Char) × List Char :=
    match r3 with
    | '/' :: c :: rest => if isAlphaCI c then (some [c], rest) else (none, r3)
    | _ => (none, r3)
  let r4 := slash.2
  let r5 := match r4 with
    | ')' :: rest => rest
    | _ => r4
  let r6 := r5.dropWhile isWsChar
  ⟨g1, slash.1, some (r6.takeWhile (fun ch => !(isLineTerm ch)))⟩

/-- Position matcher for pattern 3,
`/FINAL ANSWER:\s*(?:option\s+)?([a-z0-9]+)(?:\/([a-z]))?\)?\s*(.*)$/im`.
The optional `option\s+` group is preferred; when taking it leaves no
alphanumeric character for the mandatory capture, the engine backtracks and
retries without it (then `option` itself can feed `([a-z0-9]+)`). -/
def tryP3 (cs : List Char) : Option MCQMatch :=
  match ciStrip finalAnswerMarker cs with
  | none => none
  | some r1 =>
    let r2 := r1.dropWhile isWsChar
    let viaOption : Option (List Char × List Char) :=
      match ciStrip optionWord r2 with
      | some rA =>
        if (rA.takeWhile isWsChar).isEmpty then none
        else
          let rB := rA.dropWhile isWsChar
          let g := rB.takeWhile isAlnumCI
          if g.isEmpty then none else some (g, rB.dropWhile isAlnumCI)
      | none => none
    match viaOption with
    | some (g1, r3) => some (numTail g1 r3)
    | none =>
      let g := r2.takeWhile isAlnumCI
      if g.isEmpty then none else some (numTail g (r2.dropWhile isAlnumCI))

/-- Position matcher for pattern 4,
`/option\s+([a-z0-9]+)(?:\/([a-z]))?\)?\s*(.*)$/im`. -/
def tryP4 (cs : List Char) : Option MCQMatch :=
  match ciStrip optionWord cs with
  | none => none
  | some rA =>
    if (rA.takeWhile isWsChar).isEmpty then none
    else
      let rB := rA.dropWhile isWsChar
      let g := rB.takeWhile isAlnumCI
      if g.isEmpty then none else some (numTail g (rB.dropWhile isAlnumCI))

/-- The sequential fallback of `parseMCQ`: pattern 1, then 2, then 3, then 4,
each run as an unanchored scan over the whole response. -/
def findMCQMatch (cs : List Char) : Option MCQMatch :=
  match firstMatch tryP1 cs with
  | some m => some m
  | none =>
    match firstMatch tryP2 cs with
    | some m => some m
    | none =>
      match firstMatch tryP3 cs with
      | some m => some m
      | none => firstMatch tryP4 cs

/-- Position matcher for the MCQ sniff in `parseResponse`,
`/option\s+\d+\)/i`. -/
def tryOptNum (cs : List Char) : Option Unit :=
  match ciStrip optionWord cs with
  | none => none
  | some r1 =>
    if (r1.takeWhile isWsChar).isEmpty then none
    else
      let r2 := r1.dropWhile isWsChar
      if (r2.takeWhile Char.isDigit).isEmpty then none
      else
        match r2.dropWhile Char.isDigit with
        | ')' :: _ => some ()
        | _ => none

def hasOptionNumPat (cs : List Char) : Bool :=
  (firstMatch tryOptNum cs).isSome

/-! ## Structured answers and the four parse functions -/

/-- The tagged union produced by the Response Parser: exactly one variant per
completion.  Constructor arguments are the computed record fields of the
source (`thoughts`/`explanation`/`final_answer_highlight` are verbatim copies
of fields already present and are not repeated). -/
inductive ParsedAnswer where
  | mcq (answer reasoning code : List Char)
  | webDev (code html css : List Char)
  | python (code concept : List Char)
  | plainText (code : List Char)
deriving DecidableEq, Repr

/-- The `question_type` discriminator string of each variant. -/
def ParsedAnswer.questionType : ParsedAnswer → String
  | .mcq _ _ _ => "multiple_choice"
  | .webDev _ _ _ => "web_dev"
  | .python _ _ => "python"
  | .plainText _ => "text"

/-- The `answer` field, present only on the multiple-choice variant. -/
def ParsedAnswer.answer : ParsedAnswer → Option (List Char)
  | .mcq a _ _ => some a
  | _ => none

/-- Position matcher for a fenced block `/TOKEN\s*([\s\S]*?)```/` with a
case-sensitive opening token (used with TOKEN one of three backticks plus
`markdown`, `python` or `text`). -/
def fenceFrom (openTok : List Char) (cs : List Char) : Option (List Char) :=
  match litStrip openTok cs with
  | none => none
  | some r1 => upToLit ("```".data) (r1.dropWhile isWsChar)

def tryReason (cs : List Char) : Option (List Char) :=
  fenceFrom ("```markdown".data) cs

def tryPyFence (cs : List Char) : Option (List Char) :=
  fenceFrom ("```python".data) cs

def tryTextFence (cs : List Char) : Option (List Char) :=
  fenceFrom ("```text".data) cs

/-- The answer-string computation of `parseMCQ` from the capture groups of
the winning pattern, translated branch by branch. -/
def answerFromMatch (mm : MCQMatch) : List Char :=
  if labelListWhole mm.g1 then
    let choices := mm.g1.map Char.toUpper
    let value := if optTruthy mm.g2 then trimL (mm.g2.getD []) else []
    if !value.isEmpty then choices ++ ' ' :: value else choices
  else if singleLetterWhole mm.g1 && optTruthy mm.g2 then
    mm.g1.map Char.toUpper ++ ' ' :: trimL (mm.g2.getD [])
  else if !(optTruthy mm.g2) && !(optTruthy mm.g3) then
    trimL mm.g1
  else
    let optionText := if optTruthy mm.g3 then trimL (mm.g3.getD []) else []
    if optTruthy mm.g2 then
      "option ".data ++ mm.g1 ++ '/' :: (mm.g2.getD []) ++
        (if !optionText.isEmpty then ')' :: ' ' :: optionText else [])
    else
      "option ".data ++ mm.g1 ++
        (if !optionText.isEmpty then ')' :: ' ' :: optionText else [])

/-- The model of `parseMCQ`: pick the first matching pattern, extract the
answer (sentinel `"Answer not found"` when nothing matches), extract the
reasoning from a ```` ```markdown ```` fence, and append a highlighted
final-answer section when the match came from a legacy pattern and the exact
text `FINAL ANSWER:` does not occur. -/
def parseMCQ (cs : List Char) : ParsedAnswer :=
  let m := findMCQMatch cs
  let answer :=
    match m with
    | some mm => answerFromMatch mm
    | none => "Answer not found".data
  let reasoning :=
    match firstMatch tryReason cs with
    | some g => trimL g
    | none => "No reasoning provided".data
  let formatted :=
    if m.isSome && !(containsLit ("FINAL ANSWER:".data) cs) then
      cs ++ ("\n\n**FINAL ANSWER:** ".data) ++ answer
    else cs
  .mcq answer reasoning formatted

/-- Position matcher for `/<!DOCTYPE html>[\s\S]*?<\/html>/i`:
the doctype token followed lazily by the first closing `</html>`. -/
def tryDoctype (cs : List Char) : Option (List Char) :=
  match ciSplit ("<!doctype html>".data) cs with
  | none => none
  | some (pre, rest) => (throughCI ("</html>".data) rest).map (fun mid => pre ++ mid)

/-- Position matcher for `/<html[\s\S]*?<\/html>/i`. -/
def tryHtmlOpen (cs : List Char) : Option (List Char) :=
  match ciSplit ("<html".data) cs with
  | none => none
  | some (pre, rest) => (throughCI ("</html>".data) rest).map (fun mid => pre ++ mid)

/-- Position matcher for `/<style[\s\S]*?>([\s\S]*?)<\/style>/i`,
returning the capture group. -/
def tryStyle (cs : List Char) : Option (List Char) :=
  match ciStrip ("<style".data) cs with
  | none => none
  | some r1 =>
    match afterChar '>' r1 with
    | none => none
    | some r2 => upToCI ("</style>".data) r2

/-- The model of `parseWebDev`.  Note the source quirk: the CSS tail is cut
at `response.indexOf("</html>") + 7`, a case-sensitive search from the start
of the whole response that yields `substring(6)` when the exact lowercase
text is absent (indexOf returns -1). -/
def parseWebDev (cs : List Char) : ParsedAnswer :=
  let html :=
    match firstMatch tryDoctype cs with
    | some h => h
    | none =>
      match firstMatch tryHtmlOpen cs with
      | some h => h
      | none => []
  let cssAfter :=
    if !html.isEmpty then
      trimL (match indexOfLit ("</html>".data) cs with
        | some i => cs.drop (i + 7)
        | none => cs.drop 6)
    else []
  let css :=
    if !cssAfter.isEmpty then cssAfter
    else
      match firstMatch tryStyle cs with
      | some g => trimL g
      | none => []
  let code := html ++ (if !css.isEmpty then '\n' :: '\n' :: css else [])
  .webDev code html css

/-- Lazy `(.+?)` followed by the lookahead `(?=\n|```)`: consume at least one
non-LineTerminator character and stop at the first position where the next
character is a newline or the next three characters are backticks. -/
def lazyConceptChars : List Char → Option (List Char)
  | [] => none
  | c :: rest =>
    if isLineTerm c then none
    else if (match rest with
             | '\n' :: _ => true
             | '`' :: '`' :: '`' :: _ => true
             | _ => false) then some [c]
    else (lazyConceptChars rest).map (fun g => c :: g)

/-- Backtracking of the greedy `\s*` in `/Main concept:\s*(.+?)(?=\n|```)/i`:
try the position after the maximal whitespace run first, then give back one
whitespace character at a time. -/
def conceptBacktrack : List Char → List Char → Option (List Char)
  | revWs, r2 =>
    match lazyConceptChars r2 with
    | some g => some g
    | none =>
      match revWs with
      | [] => none
      | c :: rest => conceptBacktrack rest (c :: r2)

/-- Position matcher for `/Main concept:\s*(.+?)(?=\n|```)/i`. -/
def tryConcept (cs : List Char) : Option (List Char) :=
  match ciStrip ("main concept:".data) cs with
  | none => none
  | some r1 =>
    conceptBacktrack (r1.takeWhile isWsChar).reverse (r1.dropWhile isWsChar)

/-- The model of `parsePython`. -/
def parsePython (cs : List Char) : ParsedAnswer :=
  let concept :=
    match firstMatch tryConcept cs with
    | some g => trimL g
    | none => "Python solution".data
  let code :=
    match firstMatch tryPyFence cs with
    | some g => trimL g
    | none => cs
  .python code concept

/-- The model of `parseText`. -/
def parseText (cs : List Char) : ParsedAnswer :=
  match firstMatch tryTextFence cs with
  | some g => .plainText (trimL g)
  | none => .plainText cs

/-- The model of `parseResponse`: classify by the first matching marker,
in source order — MCQ sniff (`option N)` pattern or `FINAL ANSWER:` marker),
then HTML tokens (case-sensitive `includes`), then a python fence, then the
plain-text fallback. -/
def parseResponse (cs : List Char) : ParsedAnswer :=
  if hasOptionNumPat cs || containsCI finalAnswerMarker cs then parseMCQ cs
  else if containsLit ("<html>".data) cs || containsLit ("<!DOCTYPE html>".data) cs then
    parseWebDev cs
  else if containsLit ("```python".data) cs then parsePython cs
  else parseText cs

/-! ## Backend errors and the retry loop

The Orchestrator classifies a thrown API error from its `status` and `code`
fields: HTTP 503 or axios `ERR_BAD_RESPONSE` counts as a 503-class failure,
`ECONNRESET`/`ETIMEDOUT` as a network failure; only these are retried, and
only while the attempt counter is below `maxRetries = 3`. -/

structure ApiError where
  status : Option Nat
  code : Option String
  message : String
deriving DecidableEq, Repr

/-- `apiError.response?.status === 503 || apiError.code === "ERR_BAD_RESPONSE"`. -/
def is503 (e : ApiError) : Bool :=
  e.status == some 503 || e.code == some "ERR_BAD_RESPONSE"

/-- `apiError.code === "ECONNRESET" || apiError.code === "ETIMEDOUT"`. -/
def isNetworkError (e : ApiError) : Bool :=
  e.code == some "ECONNRESET" || e.code == some "ETIMEDOUT"

/-- The retryable-transient classification used by the retry loop. -/
def isRetryable (e : ApiError) : Bool :=
  is503 e || isNetworkError e

/-- `Math.min(1000 * Math.pow(2, attempt - 1), 5000)`. -/
def waitTime (attempt : Nat) : Nat :=
  min (1000 * 2 ^ (attempt - 1)) 5000

/-- Observable trace of one run of the retry loop: how many attempts were
made, which backoff delays were slept, the final result (`ok` text when the
loop broke on success, the thrown error otherwise), and the `lastError`
variable after the loop (the most recent caught error, if any). -/
structure RetryTrace where
  calls : Nat
  delays : List Nat
  result : Except ApiError String
  lastError : Option ApiError
deriving Repr

/-- The 3-attempt retry loop of `processInitialQuestion`/`processDebugging`,
with `const maxRetries = 3` unrolled: attempts 1 and 2 retry after a backoff
delay when the error is retryable-transient; the error of attempt 3 (or any
non-retryable error) is rethrown immediately, since the source condition is
`(is503 || isNetworkError) && attempt < maxRetries`. -/
def runRetryLoop (att : Nat → Except ApiError String) : RetryTrace :=
  match att 1 with
  | .ok t => ⟨1, [], .ok t, none⟩
  | .error e1 =>
    if isRetryable e1 then
      match att 2 with
      | .ok t => ⟨2, [waitTime 1], .ok t, some e1⟩
      | .error e2 =>
        if isRetryable e2 then
          match att 3 with
          | .ok t => ⟨3, [waitTime 1, waitTime 2], .ok t, some e2⟩
          | .error e3 => ⟨3, [waitTime 1, waitTime 2], .error e3, some e3⟩
        else ⟨2, [waitTime 1], .error e2, some e2⟩
    else ⟨1, [], .error e1, some e1⟩

/-! ## Configuration -/

inductive Mode where
  | mcq
  | general
deriving DecidableEq, Repr

/-- The persisted configuration record of `ConfigHelper`. -/
structure Config where
  groqApiKey : String
  geminiApiKey : String
  mode : Mode
  groqModel : String
  geminiModel : String
  language : String
  opacity : ℚ
deriving DecidableEq, Repr

/-- The `defaultConfig` literal of `ConfigHelper`. -/
def defaultConfig : Config :=
  ⟨"", "", Mode.mcq, "llama-3.3-70b-versatile", "gemini-2.5-flash", "python", 1⟩

/-- Does the active mode have its API key (the client object for the active
provider is non-null exactly when the corresponding key is non-empty)? -/
def keyConfigured (cfg : Config) : Bool :=
  match cfg.mode with
  | Mode.mcq => cfg.groqApiKey != ""
  | Mode.general => cfg.geminiApiKey != ""

/-! ## Orchestrator state and pipelines

The mutable pieces touched by `processScreenshots` and friends: the current
view, the two screenshot queues, the conversation history and the cached
last response.  Reads of image bytes are modelled by a `fileRead` oracle
returning `none` exactly when `fs.readFileSync` would throw (missing file);
the backend call of attempt `n` is modelled by a `backend` oracle. -/

inductive View where
  | queue
  | solutions
deriving DecidableEq, Repr

structure OrchState where
  view : View
  mainQueue : List String
  extraQueue : List String
  conversationHistory : List (String × String)
  lastResponse : String
deriving DecidableEq, Repr

inductive PipelineOutcome where
  | success (answer : ParsedAnswer)
  | failure (msg : String)
deriving DecidableEq, Repr

def PipelineOutcome.isFailure : PipelineOutcome → Bool
  | .failure _ => true
  | .success _ => false

/-- Observable result of one pipeline run: the state afterwards, the
surfaced outcome, the number of attempts executed by the retry loop, and the
backoff delays slept. -/
structure PipelineRun where
  state : OrchState
  outcome : PipelineOutcome
  backendCalls : Nat
  delays : List Nat
deriving Repr

/-- `Promise.all(screenshots.map(p => fs.readFileSync(p)...))`:
fails when any queued path cannot be read. -/
def readAll (fileRead : String → Option String) : List String → Option (List String)
  | [] => some []
  | p :: rest =>
    match fileRead p, readAll fileRead rest with
    | some b, some bs => some (b :: bs)
    | _, _ => none

/-- One attempt body of the retry loop: the missing-key guard runs inside
the `try`, before the provider call, and throws a plain `Error` (no HTTP
status, no code — hence never retryable). -/
def attemptOnce (cfg : Config) (backend : Nat → Except ApiError String) (n : Nat) :
    Except ApiError String :=
  match cfg.mode with
  | Mode.mcq =>
    if cfg.groqApiKey != "" then backend n
    else .error ⟨none, none, "Groq API key not configured. Please add your Groq API key in settings."⟩
  | Mode.general =>
    if cfg.geminiApiKey != "" then backend n
    else .error ⟨none, none, "Gemini API key not configured. Please add your Gemini API key in settings."⟩

/-- Success epilogue of `processInitialQuestion`: record the conversation
turns, cache the last response, parse, clear the main queue and switch the
view to "solutions". -/
def initialSuccess (st1 : OrchState) (responseText : String) (tr : RetryTrace) :
    PipelineRun :=
  ⟨{ st1 with
      conversationHistory := st1.conversationHistory ++
        [("user", "Screenshots provided"), ("assistant", responseText)],
      lastResponse := responseText,
      mainQueue := [],
      view := View.solutions },
    .success (parseResponse responseText.data), tr.calls, tr.delays⟩

/-- The Initial-Question pipeline of `ProcessingHelper.processInitialQuestion`.
Every failure path runs through the surrounding `catch`, which resets the
view to "queue" and leaves the queues untouched; the conversation state is
reset at the very beginning of the run.  A missing file makes
`fs.readFileSync` throw before any backend call (message modelled by its
`ENOENT` prefix).  After the loop, `if (!responseText && lastError) throw
lastError`: an empty success text after an earlier failure is surfaced as
that failure. -/
def processInitialQuestion (cfg : Config) (fileRead : String → Option String)
    (backend : Nat → Except ApiError String) (st : OrchState) : PipelineRun :=
  if st.mainQueue = [] then ⟨st, .failure "No screenshots to process", 0, []⟩
  else
    let st1 : OrchState := { st with conversationHistory := [], lastResponse := "" }
    match readAll fileRead st1.mainQueue with
    | none => ⟨{ st1 with view := View.queue }, .failure "ENOENT: no such file or directory", 0, []⟩
    | some _imageDataList =>
      let tr := runRetryLoop (attemptOnce cfg backend)
      match tr.result with
      | .error e => ⟨{ st1 with view := View.queue }, .failure e.message, tr.calls, tr.delays⟩
      | .ok responseText =>
        if responseText = "" then
          match tr.lastError with
          | some e => ⟨{ st1 with view := View.queue }, .failure e.message, tr.calls, tr.delays⟩
          | none => initialSuccess st1 responseText tr
        else initialSuccess st1 responseText tr

/-- The debug prompt built from the cached last response. -/
def debugPromptOf (lastResponse : String) : String :=
  "Previous response:\n" ++ lastResponse ++
  "\n\nNow analyze these error screenshots and fix the issues. Respond in the same format as before, but with corrected code."

/-- Success epilogue of `processDebugging`: push the debug turns, update the
cached response, parse and clear the extra queue; the view is not changed. -/
def debugSuccess (st : OrchState) (debugPrompt responseText : String) (tr : RetryTrace) :
    PipelineRun :=
  ⟨{ st with
      conversationHistory := st.conversationHistory ++
        [("user", debugPrompt), ("assistant", responseText)],
      lastResponse := responseText,
      extraQueue := [] },
    .success (parseResponse responseText.data), tr.calls, tr.delays⟩

/-- The Debug pipeline of `ProcessingHelper.processDebugging`.  Its `catch`
does not touch the view ("keep view as solutions"), and no failure path
mutates the queues. -/
def processDebugging (cfg : Config) (fileRead : String → Option String)
    (backend : Nat → Except ApiError String) (st : OrchState) : PipelineRun :=
  if st.extraQueue = [] then ⟨st, .failure "No error screenshots provided", 0, []⟩
  else
    match readAll fileRead st.extraQueue with
    | none => ⟨st, .failure "ENOENT: no such file or directory", 0, []⟩
    | some _imageDataList =>
      let debugPrompt := debugPromptOf st.lastResponse
      let tr := runRetryLoop (attemptOnce cfg backend)
      match tr.result with
      | .error e => ⟨st, .failure e.message, tr.calls, tr.delays⟩
      | .ok responseText =>
        if responseText = "" then
          match tr.lastError with
          | some e => ⟨st, .failure e.message, tr.calls, tr.delays⟩
          | none => debugSuccess st debugPrompt responseText tr
        else debugSuccess st debugPrompt responseText tr

/-- The dispatcher `processScreenshots`: a non-empty main queue always means
a new question — force the view back to "queue" and run the Initial-Question
pipeline; otherwise debug only from the "solutions" view with a non-empty
extra queue; otherwise report nothing to process (no backend call). -/
def processScreenshots (cfg : Config) (fileRead : String → Option String)
    (backend : Nat → Except ApiError String) (st : OrchState) : PipelineRun :=
  if st.mainQueue ≠ [] then
    processInitialQuestion cfg fileRead backend { st with view := View.queue }
  else if st.view = View.solutions ∧ st.extraQueue ≠ [] then
    processDebugging cfg fileRead backend st
  else ⟨st, .failure "No screenshots to process", 0, []⟩

/-- The defensive existence filter of the fuller `ProcessingHelper` variant
(`src/unnamed/part_002`): `screenshotQueue.filter(path => fs.existsSync(path))`.
The simplified variant under `src/electron` has no such filter. -/
def filterExisting (existsOnDisk : String → Bool) (queue : List String) : List String :=
  queue.filter existsOnDisk

theorem filterExisting_mem (ex : String → Bool) (q : List String) (p : String)
    (h : p ∈ filterExisting ex q) : ex p = true := by
  simpa [filterExisting] using (List.mem_filter.mp h).2

/-! ## ConfigHelper: sanitization and `updateConfig` -/

/-- `sanitizeGroqModel`: only allow-listed models pass; anything else falls
back to the default. -/
def sanitizeGroqModel (model : String) : String :=
  if model = "llama-3.3-70b-versatile" ∨
     model = "meta-llama/llama-4-maverick-17b-128e-instruct" ∨
     model = "openai/gpt-oss-120b" then model
  else "llama-3.3-70b-versatile"

/-- `sanitizeGeminiModel`. -/
def sanitizeGeminiModel (model : String) : String :=
  if model = "gemini-2.5-pro" ∨ model = "gemini-2.5-flash" ∨
     model = "gemini-2.5-flash-lite" then model
  else "gemini-2.5-flash"

/-- A `Partial<Config>` argument to `updateConfig`:
`none` models an absent (undefined) property. -/
structure ConfigUpdates where
  groqApiKey : Option String := none
  geminiApiKey : Option String := none
  mode : Option Mode := none
  groqModel : Option String := none
  geminiModel : Option String := none
  language : Option String := none
  opacity : Option ℚ := none
deriving DecidableEq, Repr

/-- `updateConfig`: sanitize truthy model updates, overlay the updates onto
the current config (`{...currentConfig, ...updates}`), and decide whether the
`config-updated` event fires — only when the update carries an API key, a
model, the mode, or the language.  Returns the new config together with the
emitted-event flag. -/
def updateConfig (current : Config) (u : ConfigUpdates) : Config × Bool :=
  let groqModelU : Option String :=
    match u.groqModel with
    | some m => some (if m != "" then sanitizeGroqModel m else m)
    | none => none
  let geminiModelU : Option String :=
    match u.geminiModel with
    | some m => some (if m != "" then sanitizeGeminiModel m else m)
    | none => none
  let newConfig : Config :=
    { groqApiKey := u.groqApiKey.getD current.groqApiKey
      geminiApiKey := u.geminiApiKey.getD current.geminiApiKey
      mode := u.mode.getD current.mode
      groqModel := groqModelU.getD current.groqModel
      geminiModel := geminiModelU.getD current.geminiModel
      language := u.language.getD current.language
      opacity := u.opacity.getD current.opacity }
  let emitted := u.groqApiKey.isSome || u.geminiApiKey.isSome ||
    groqModelU.isSome || geminiModelU.isSome || u.mode.isSome || u.language.isSome
  (newConfig, emitted)

/-! ## The Groq request built by `callGroq`

`callGroq(systemPrompt, _images, signal)` never reads `_images`: it runs OCR
over the main screenshot queue and sends a single user message containing the
system prompt, an accuracy boilerplate, and the OCR text.  The OCR engine is
modelled as an oracle from the queued paths to the extracted text. -/

structure GroqRequest where
  model : String
  messages : List (String × String)
  maxTokens : Nat
  temperature : ℚ
deriving DecidableEq, Repr

/-- The accuracy boilerplate inserted between the system prompt and the OCR
text (verbatim from the source; `\x27` is the apostrophe). -/
def groqAccuracyBoilerplate : String :=
  "\n\nCRITICAL FOR ACCURACY:\n" ++
  "- Calculate the correct answer yourself - don\x27t just pick from options\n" ++
  "- For multiple answer MCQs, select ALL correct options (e.g., \"A, C, D\")\n" ++
  "- For fill in the blanks, provide the exact word/phrase needed\n" ++
  "- For Q&A questions, give clear, concise answers (1-3 sentences)\n" ++
  "- If you calculate 6600 but option says 6500, answer with YOUR calculation (6600)\n" ++
  "- OCR may misread values - trust your math over the extracted text\n" ++
  "- Prioritize CORRECTNESS over matching given options exactly\n" ++
  "- Give the right answer even if it doesn\x27t match any option perfectly\n\n" ++
  "Question from OCR:\n"

/-- The enhanced prompt string of `callGroq`. -/
def enhancedGroqPrompt (systemPrompt extractedText : String) : String :=
  systemPrompt ++ groqAccuracyBoilerplate ++ extractedText

/-- The request constructed by `callGroq`: OCR text of the main queue plus
the prompt, one user message, `config.groqModel || "llama-3.3-70b-versatile"`,
`max_tokens: 8000`, `temperature: 0.1`.  The `_images` parameter is unused,
exactly as in the source. -/
def callGroq (cfg : Config) (systemPrompt : String) (_images : List String)
    (mainQueue : List String) (ocr : List String → String) : GroqRequest :=
  let extractedText := ocr mainQueue
  let enhancedPrompt := enhancedGroqPrompt systemPrompt extractedText
  { model := if cfg.groqModel != "" then cfg.groqModel else "llama-3.3-70b-versatile"
    messages := [("user", enhancedPrompt)]
    maxTokens := 8000
    temperature := 1 / 10 }

/-! ## Helper lemmas -/

theorem parseMCQ_questionType (cs : List Char) :
    (parseMCQ cs).questionType = "multiple_choice" := rfl

theorem parseWebDev_questionType (cs : List Char) :
    (parseWebDev cs).questionType = "web_dev" := rfl

theorem parsePython_questionType (cs : List Char) :
    (parsePython cs).questionType = "python" := rfl

theorem parseText_questionType (cs : List Char) :
    (parseText cs).questionType = "text" := by
  unfold parseText
  split <;> rfl

/-! ## Claim theorems -/

/-- C10: in MCQ mode the image list handed to `callGroq` is never read.
Two invocations with the same prompt, queue and OCR oracle but different
image byte lists construct identical Groq requests (hence identical
completions), and the single user message carries only the prompt text plus
the OCR-extracted text of the main queue — never image data. -/
theorem callGroq_ignores_images (cfg : Config) (prompt : String)
    (imgs1 imgs2 : List String) (q : List String) (ocr : List String → String) :
    callGroq cfg prompt imgs1 q ocr = callGroq cfg prompt imgs2 q ocr ∧
    (callGroq cfg prompt imgs1 q ocr).messages =
      [("user", enhancedGroqPrompt prompt (ocr q))] :=
  ⟨rfl, rfl⟩

/-- C2: the retry loop retries only retryable-transient failures.  Any
non-retryable error on attempt 1 terminates the loop after exactly one call,
with no backoff delay, surfacing that same error; and whenever more than one
call was made, attempt 1 must have failed with a retryable-transient error. -/
theorem retry_only_transient :
    (∀ (att : Nat → Except ApiError String) (e : ApiError),
       att 1 = Except.error e → isRetryable e = false →
       runRetryLoop att = ⟨1, [], Except.error e, some e⟩) ∧
    (∀ att : Nat → Except ApiError String, 1 < (runRetryLoop att).calls →
       ∃ e, att 1 = Except.error e ∧ isRetryable e = true) := by
  constructor
  · intro att e h1 hr
    simp [runRetryLoop, h1, hr]
  · intro att h
    cases hE : att 1 with
    | ok t => simp [runRetryLoop, hE] at h
    | error e =>
      by_cases hr : isRetryable e = true
      · exact ⟨e, rfl, hr⟩
      · rw [Bool.not_eq_true] at hr
        simp [runRetryLoop, hE, hr] at h

def invalidKeyError : ApiError := ⟨some 401, none, "Invalid API Key"⟩

theorem retry_only_transient_witness :
    runRetryLoop (fun _ => Except.error invalidKeyError) =
      ⟨1, [], Except.error invalidKeyError, some invalidKeyError⟩ :=
  retry_only_transient.1 (fun _ => Except.error invalidKeyError) invalidKeyError rfl
    (by decide)

/-- C3: dispatch of `processScreenshots`.  A non-empty main queue always
runs the Initial-Question pipeline after forcing the view to "queue",
regardless of the current view; with an empty main queue the Debug pipeline
runs exactly when the view is "solutions" and the extra queue is non-empty;
otherwise no backend call is made and "No screenshots to process" is
reported. -/
theorem processScreenshots_dispatch (cfg : Config) (fr : String → Option String)
    (be : Nat → Except ApiError String) (st : OrchState) :
    (st.mainQueue ≠ [] →
       processScreenshots cfg fr be st =
         processInitialQuestion cfg fr be { st with view := View.queue }) ∧
    (st.mainQueue = [] → st.view = View.solutions → st.extraQueue ≠ [] →
       processScreenshots cfg fr be st = processDebugging cfg fr be st) ∧
    (st.mainQueue = [] → ¬(st.view = View.solutions ∧ st.extraQueue ≠ []) →
       processScreenshots cfg fr be st =
         ⟨st, PipelineOutcome.failure "No screenshots to process", 0, []⟩) := by
  refine ⟨?_, ?_, ?_⟩
  · intro h
    simp [processScreenshots, h]
  · intro h1 h2 h3
    simp [processScreenshots, h1, h2, h3]
  · intro h1 h2
    simp [processScreenshots, h1, h2]

def wDispatchBackend : Nat → Except ApiError String :=
  fun _ => Except.ok "FINAL ANSWER: A"

def wDispatchRead : String → Option String := fun _ => some "bytes"

def wDispatchSt1 : OrchState := ⟨View.solutions, ["a.png"], ["e.png"], [], ""⟩

def wDispatchSt2 : OrchState := ⟨View.solutions, [], ["e.png"], [], ""⟩

def wDispatchSt3 : OrchState := ⟨View.queue, [], [], [], ""⟩

theorem processScreenshots_dispatch_witness :
    processScreenshots defaultConfig wDispatchRead wDispatchBackend wDispatchSt1 =
      processInitialQuestion defaultConfig wDispatchRead wDispatchBackend
        { wDispatchSt1 with view := View.queue } ∧
    processScreenshots defaultConfig wDispatchRead wDispatchBackend wDispatchSt2 =
      processDebugging defaultConfig wDispatchRead wDispatchBackend wDispatchSt2 ∧
    processScreenshots defaultConfig wDispatchRead wDispatchBackend wDispatchSt3 =
      ⟨wDispatchSt3, PipelineOutcome.failure "No screenshots to process", 0, []⟩ :=
  ⟨(processScreenshots_dispatch _ _ _ _).1 (by decide),
   (processScreenshots_dispatch _ _ _ _).2.1 rfl rfl (by decide),
   (processScreenshots_dispatch _ _ _ _).2.2 rfl (by decide)⟩

def opacityOnlyUpdate : ConfigUpdates := { opacity := some (1 / 2) }

/-- C9 counterexample: an update that changes only the opacity field is
saved (the stored opacity really changes) but fires no `config-updated`
event, so subscribers are not notified and adapters are not re-initialized —
contradicting "notifies subscribers ... for every update, including one that
changes only the opacity field". -/
theorem opacity_update_fires_no_event :
    (updateConfig defaultConfig opacityOnlyUpdate).2 = false ∧
    (updateConfig defaultConfig opacityOnlyUpdate).1.opacity = 1 / 2 :=
  ⟨rfl, rfl⟩

/-- C9 amended: `updateConfig` re-validates model selections against the
allow-lists (a non-empty invalid model value falls back to the documented
default) and fires the `config-updated` event exactly when the update
carries an API key, a model, the mode, or the language — an opacity-only
update is saved without notifying subscribers. -/
theorem updateConfig_validates_and_notifies (c : Config) (u : ConfigUpdates) :
    ((updateConfig c u).2 =
       (u.groqApiKey.isSome || u.geminiApiKey.isSome || u.groqModel.isSome ||
        u.geminiModel.isSome || u.mode.isSome || u.language.isSome)) ∧
    (∀ m, u.groqModel = some m → m ≠ "" →
       (updateConfig c u).1.groqModel = sanitizeGroqModel m) ∧
    (∀ m, u.geminiModel = some m → m ≠ "" →
       (updateConfig c u).1.geminiModel = sanitizeGeminiModel m) ∧
    (∀ m, m ≠ "llama-3.3-70b-versatile" →
       m ≠ "meta-llama/llama-4-maverick-17b-128e-instruct" →
       m ≠ "openai/gpt-oss-120b" →
       sanitizeGroqModel m = "llama-3.3-70b-versatile") := by
  refine ⟨?_, ?_, ?_, ?_⟩
  · cases hg : u.groqModel <;> cases hge : u.geminiModel <;>
      simp [updateConfig, hg, hge]
  · intro m hm hne
    have hb : (m != "") = true := by simpa [bne_iff_ne] using hne
    simp [updateConfig, hm, hb]
  · intro m hm hne
    have hb : (m != "") = true := by simpa [bne_iff_ne] using hne
    simp [updateConfig, hm, hb]
  · intro m h1 h2 h3
    simp [sanitizeGroqModel, h1, h2, h3]

def wGroqModelUpdate : ConfigUpdates := { groqModel := some "bogus-model" }

theorem updateConfig_validates_and_notifies_witness :
    (updateConfig defaultConfig wGroqModelUpdate).1.groqModel =
      sanitizeGroqModel "bogus-model" ∧
    sanitizeGroqModel "bogus-model" = "llama-3.3-70b-versatile" :=
  ⟨(updateConfig_validates_and_notifies defaultConfig wGroqModelUpdate).2.1
      "bogus-model" rfl (by decide),
   (updateConfig_validates_and_notifies defaultConfig wGroqModelUpdate).2.2.2
      "bogus-model" (by decide) (by decide) (by decide)⟩

/-- C4: parser totality.  For every non-empty input the Response Parser
produces exactly one record, whose variant is one of multiple-choice, web
markup, code solution or plain text (the embedding is a total function, so
no input raises); and when none of the four MCQ extraction patterns matches,
the answer field holds the sentinel string "Answer not found" rather than an
exception. -/
theorem parseResponse_total (cs : List Char) (_hne : cs ≠ []) :
    ((parseResponse cs).questionType = "multiple_choice" ∨
     (parseResponse cs).questionType = "web_dev" ∨
     (parseResponse cs).questionType = "python" ∨
     (parseResponse cs).questionType = "text") ∧
    (findMCQMatch cs = none →
       (parseMCQ cs).answer = some ("Answer not found".data)) := by
  constructor
  · unfold parseResponse
    split
    · exact Or.inl (parseMCQ_questionType cs)
    split
    · exact Or.inr (Or.inl (parseWebDev_questionType cs))
    split
    · exact Or.inr (Or.inr (Or.inl (parsePython_questionType cs)))
    · exact Or.inr (Or.inr (Or.inr (parseText_questionType cs)))
  · intro h
    simp [parseMCQ, h, ParsedAnswer.answer]

theorem parseResponse_total_witness :
    (((parseResponse ("no patterns here".data)).questionType = "multiple_choice" ∨
      (parseResponse ("no patterns here".data)).questionType = "web_dev" ∨
      (parseResponse ("no patterns here".data)).questionType = "python" ∨
      (parseResponse ("no patterns here".data)).questionType = "text") ∧
     (findMCQMatch ("no patterns here".data) = none →
        (parseMCQ ("no patterns here".data)).answer =
          some ("Answer not found".data))) :=
  parseResponse_total ("no patterns here".data) (by decide)

/-- C5: classification priority.  Any input containing the `FINAL ANSWER:`
marker (case-insensitively) is classified multiple-choice, even when it also
contains an `<html>` or `<!DOCTYPE html>` token: the MCQ check of
`parseResponse` is decided before the web-markup check. -/
theorem mcq_beats_web (cs : List Char)
    (hmarker : containsCI finalAnswerMarker cs = true)
    (_hhtml : containsLit ("<html>".data) cs = true ∨
             containsLit ("<!DOCTYPE html>".data) cs = true) :
    (parseResponse cs).questionType = "multiple_choice" := by
  simp [parseResponse, hmarker, parseMCQ_questionType]

theorem mcq_beats_web_witness :
    (parseResponse ("FINAL ANSWER: C\n<html>x</html>".data)).questionType =
      "multiple_choice" :=
  mcq_beats_web ("FINAL ANSWER: C\n<html>x</html>".data) (by decide)
    (Or.inl (by decide))

/-- C7: Initial-Question pipeline state effects.  On success the main queue
is cleared and the view becomes "solutions"; on every failure the view is
reset to "queue" and the main queue is exactly what it was before the run. -/
theorem initial_pipeline_state_effects (cfg : Config) (fr : String → Option String)
    (be : Nat → Except ApiError String) (st : OrchState) (hne : st.mainQueue ≠ []) :
    (∀ a, (processInitialQuestion cfg fr be st).outcome = PipelineOutcome.success a →
       (processInitialQuestion cfg fr be st).state.mainQueue = [] ∧
       (processInitialQuestion cfg fr be st).state.view = View.solutions) ∧
    (∀ msg, (processInitialQuestion cfg fr be st).outcome = PipelineOutcome.failure msg →
       (processInitialQuestion cfg fr be st).state.view = View.queue ∧
       (processInitialQuestion cfg fr be st).state.mainQueue = st.mainQueue) := by
  cases hra : readAll fr st.mainQueue with
  | none =>
    constructor
    · intro a ha
      simp [processInitialQuestion, if_neg hne, hra] at ha
    · intro msg _
      constructor <;> simp [processInitialQuestion, if_neg hne, hra]
  | some bs =>
    cases htr : (runRetryLoop (attemptOnce cfg be)).result with
    | error e =>
      constructor
      · intro a ha
        simp [processInitialQuestion, if_neg hne, hra, htr] at ha
      · intro msg _
        constructor <;> simp [processInitialQuestion, if_neg hne, hra, htr]
    | ok t =>
      by_cases ht : t = ""
      · cases hle : (runRetryLoop (attemptOnce cfg be)).lastError with
        | none =>
          constructor
          · intro a _
            constructor <;>
              simp [processInitialQuestion, if_neg hne, hra, htr, ht, hle, initialSuccess]
          · intro msg hmsg
            simp [processInitialQuestion, if_neg hne, hra, htr, ht, hle, initialSuccess] at hmsg
        | some e =>
          constructor
          · intro a ha
            simp [processInitialQuestion, if_neg hne, hra, htr, ht, hle] at ha
          · intro msg _
            constructor <;> simp [processInitialQuestion, if_neg hne, hra, htr, ht, hle]
      · constructor
        · intro a _
          constructor <;>
            simp [processInitialQuestion, if_neg hne, hra, htr, ht, initialSuccess]
        · intro msg hmsg
          simp [processInitialQuestion, if_neg hne, hra, htr, ht, initialSuccess] at hmsg

def wPipeCfg : Config := { defaultConfig with groqApiKey := "gsk_test" }

def wPipeSt : OrchState := ⟨View.queue, ["shot1.png"], ["err1.png"], [], ""⟩

def wPipeRead : String → Option String := fun _ => some "imgbytes"

def err503 : ApiError := ⟨some 503, none, "Service Unavailable"⟩

def wOkBackend : Nat → Except ApiError String := fun _ => Except.ok "FINAL ANSWER: A"

theorem initial_pipeline_state_effects_witness :
    (processInitialQuestion wPipeCfg wPipeRead wOkBackend wPipeSt).state.mainQueue = [] ∧
    (processInitialQuestion wPipeCfg wPipeRead wOkBackend wPipeSt).state.view =
      View.solutions :=
  (initial_pipeline_state_effects wPipeCfg wPipeRead wOkBackend wPipeSt (by decide)).1
    (parseResponse ("FINAL ANSWER: A".data)) (by decide)

theorem attemptOnce_of_key (cfg : Config) (be : Nat → Except ApiError String)
    (h : keyConfigured cfg = true) : attemptOnce cfg be = be := by
  funext n
  unfold keyConfigured at h
  unfold attemptOnce
  cases hm : cfg.mode <;> rw [hm] at h <;> simp at h <;> simp [h]

theorem runRetryLoop_allFail (att : Nat → Except ApiError String)
    (h1 : ∃ e, att 1 = Except.error e ∧ isRetryable e = true)
    (h2 : ∃ e, att 2 = Except.error e ∧ isRetryable e = true)
    (h3 : ∃ e, att 3 = Except.error e ∧ isRetryable e = true) :
    ∃ e3, runRetryLoop att =
      ⟨3, [waitTime 1, waitTime 2], Except.error e3, some e3⟩ := by
  obtain ⟨e1, he1, hr1⟩ := h1
  obtain ⟨e2, he2, hr2⟩ := h2
  obtain ⟨e3, he3, hr3⟩ := h3
  exact ⟨e3, by simp [runRetryLoop, he1, hr1, he2, hr2, he3, hr3]⟩

theorem runRetryLoop_failThenOk (att : Nat → Except ApiError String)
    (e : ApiError) (t : String) (h1 : att 1 = Except.error e)
    (hr : isRetryable e = true) (h2 : att 2 = Except.ok t) :
    runRetryLoop att = ⟨2, [waitTime 1], Except.ok t, some e⟩ := by
  simp [runRetryLoop, h1, hr, h2]

/-- C1 amended: retry bound for both pipelines.  With a non-empty queue,
readable files and a configured key, a backend failing every attempt with a
retryable-transient error is called exactly 3 times and a failure is
surfaced; a backend failing retryably on attempt 1 and succeeding on attempt
2 with a NON-EMPTY completion is called exactly 2 times and success is
surfaced.  (The non-emptiness proviso is forced by the post-loop
`if (!responseText && lastError) throw lastError` check, see the
counterexample.) -/
theorem retry_bound_amended (cfg : Config) (fr : String → Option String)
    (st : OrchState) (hkey : keyConfigured cfg = true) :
    (st.mainQueue ≠ [] → (readAll fr st.mainQueue).isSome = true →
       (∀ be : Nat → Except ApiError String,
          (∀ n, ∃ e, be n = Except.error e ∧ isRetryable e = true) →
          (processInitialQuestion cfg fr be st).backendCalls = 3 ∧
          (processInitialQuestion cfg fr be st).outcome.isFailure = true) ∧
       (∀ (be : Nat → Except ApiError String) (e : ApiError) (t : String),
          be 1 = Except.error e → isRetryable e = true → be 2 = Except.ok t →
          t ≠ "" →
          (processInitialQuestion cfg fr be st).backendCalls = 2 ∧
          (processInitialQuestion cfg fr be st).outcome =
            PipelineOutcome.success (parseResponse t.data))) ∧
    (st.extraQueue ≠ [] → (readAll fr st.extraQueue).isSome = true →
       (∀ be : Nat → Except ApiError String,
          (∀ n, ∃ e, be n = Except.error e ∧ isRetryable e = true) →
          (processDebugging cfg fr be st).backendCalls = 3 ∧
          (processDebugging cfg fr be st).outcome.isFailure = true) ∧
       (∀ (be : Nat → Except ApiError String) (e : ApiError) (t : String),
          be 1 = Except.error e → isRetryable e = true → be 2 = Except.ok t →
          t ≠ "" →
          (processDebugging cfg fr be st).backendCalls = 2 ∧
          (processDebugging cfg fr be st).outcome =
            PipelineOutcome.success (parseResponse t.data))) := by
  constructor
  · intro hm hr
    obtain ⟨bs, hbs⟩ := Option.isSome_iff_exists.mp hr
    constructor
    · intro be hfail
      obtain ⟨e3, htr⟩ := runRetryLoop_allFail be (hfail 1) (hfail 2) (hfail 3)
      rw [← attemptOnce_of_key cfg be hkey] at htr
      constructor <;>
        simp [processInitialQuestion, if_neg hm, hbs, htr, PipelineOutcome.isFailure]
    · intro be e t h1 hre h2 ht
      have htr := runRetryLoop_failThenOk be e t h1 hre h2
      rw [← attemptOnce_of_key cfg be hkey] at htr
      constructor <;>
        simp [processInitialQuestion, if_neg hm, hbs, htr, ht, initialSuccess]
  · intro hm hr
    obtain ⟨bs, hbs⟩ := Option.isSome_iff_exists.mp hr
    constructor
    · intro be hfail
      obtain ⟨e3, htr⟩ := runRetryLoop_allFail be (hfail 1) (hfail 2) (hfail 3)
      rw [← attemptOnce_of_key cfg be hkey] at htr
      constructor <;>
        simp [processDebugging, if_neg hm, hbs, htr, PipelineOutcome.isFailure]
    · intro be e t h1 hre h2 ht
      have htr := runRetryLoop_failThenOk be e t h1 hre h2
      rw [← attemptOnce_of_key cfg be hkey] at htr
      constructor <;>
        simp [processDebugging, if_neg hm, hbs, htr, ht, debugSuccess]

def wAllFailBackend : Nat → Except ApiError String := fun _ => Except.error err503

def wFailThenOkBackend : Nat → Except ApiError String := fun n =>
  if n = 1 then Except.error err503 else Except.ok "FINAL ANSWER: B 4:3"

theorem retry_bound_amended_witness :
    (processInitialQuestion wPipeCfg wPipeRead wAllFailBackend wPipeSt).backendCalls = 3 ∧
    (processInitialQuestion wPipeCfg wPipeRead wFailThenOkBackend wPipeSt).backendCalls = 2 ∧
    (processDebugging wPipeCfg wPipeRead wAllFailBackend wPipeSt).backendCalls = 3 :=
  ⟨((retry_bound_amended wPipeCfg wPipeRead wPipeSt (by decide)).1 (by decide)
      (by decide)).1 wAllFailBackend (fun _ => ⟨err503, rfl, by decide⟩) |>.1,
   ((retry_bound_amended wPipeCfg wPipeRead wPipeSt (by decide)).1 (by decide)
      (by decide)).2 wFailThenOkBackend err503 "FINAL ANSWER: B 4:3" rfl (by decide)
      rfl (by decide) |>.1,
   ((retry_bound_amended wPipeCfg wPipeRead wPipeSt (by decide)).2 (by decide)
      (by decide)).1 wAllFailBackend (fun _ => ⟨err503, rfl, by decide⟩) |>.1⟩

def wEmptyOkBackend : Nat → Except ApiError String := fun n =>
  if n = 1 then Except.error err503 else Except.ok ""

/-- C1 counterexample: the backend fails retryably (HTTP 503) on attempt 1
and succeeds on attempt 2 — but with an empty completion text.  Exactly 2
calls are made, yet the pipeline surfaces a FAILURE (the post-loop
`if (!responseText && lastError) throw lastError` check rethrows the
attempt-1 error, since the empty string is falsy), contradicting "exactly 2
calls are made and success is surfaced". -/
theorem retry_empty_success_surfaces_failure :
    (processInitialQuestion wPipeCfg wPipeRead wEmptyOkBackend wPipeSt).backendCalls = 2 ∧
    (processInitialQuestion wPipeCfg wPipeRead wEmptyOkBackend wPipeSt).outcome =
      PipelineOutcome.failure "Service Unavailable" := by
  constructor <;> rfl

def wMissingFileSt : OrchState := ⟨View.queue, ["missing.png"], [], [], ""⟩

/-- C8: the simplified Orchestrator does NOT filter out missing files.  With
a single queued path whose file no longer exists, `processInitialQuestion`
reaches the read-bytes error branch (`fs.readFileSync` throws into the
pipeline `catch`): the run surfaces the read failure with zero backend calls
and resets the view — so the error branch the claim calls unreachable is
reached.  (The fuller variant of `src/unnamed/part_002` does filter, see
`filterExisting` and `filterExisting_mem`.) -/
theorem missing_file_reaches_read_error :
    (processInitialQuestion wPipeCfg (fun _ => none) wOkBackend wMissingFileSt).outcome =
      PipelineOutcome.failure "ENOENT: no such file or directory" ∧
    (processInitialQuestion wPipeCfg (fun _ => none) wOkBackend wMissingFileSt).backendCalls = 0 ∧
    (processInitialQuestion wPipeCfg (fun _ => none) wOkBackend wMissingFileSt).state.view =
      View.queue := by
  refine ⟨rfl, rfl, rfl⟩

theorem firstMatch_append {α : Type} (f : List Char → Option α) (p s : List Char)
    (h : ∀ t ∈ p.tails, t ≠ [] → f (t ++ s) = none) :
    firstMatch f (p ++ s) = firstMatch f s := by
  induction p with
  | nil => rfl
  | cons c p' ih =>
    have h0 : f (c :: (p' ++ s)) = none := by
      have := h (c :: p') (by simp [List.mem_tails]) (by simp)
      simpa using this
    have ih' : firstMatch f (p' ++ s) = firstMatch f s := by
      refine ih (fun t ht hne => h t ?_ hne)
      rw [List.mem_tails] at ht ⊢
      exact ht.trans (List.suffix_cons c p')
    simp [List.cons_append, firstMatch, h0, ih']

theorem containsCI_append_right (pat p s : List Char)
    (h : containsCI pat s = true) : containsCI pat (p ++ s) = true := by
  induction p with
  | nil => simpa using h
  | cons c p' ih => simp [List.cons_append, containsCI, ih]

theorem containsCI_of_ciLeads (pat cs : List Char) (h : ciLeads pat cs = true) :
    containsCI pat cs = true := by
  cases cs with
  | nil => simpa [containsCI] using h
  | cons c rest => simp [containsCI, h]

theorem firstMatch_at_start {α : Type} (f : List Char → Option α) (cs : List Char)
    (r : α) (h : f cs = some r) : firstMatch f cs = some r := by
  cases cs with
  | nil => simpa [firstMatch] using h
  | cons c rest => simp [firstMatch, h]

def doubleMarkerInput : List Char := "FINAL ANSWER: A\nFINAL ANSWER: B 4:3".data

/-- C6 counterexample: the input `"FINAL ANSWER: A\nFINAL ANSWER: B 4:3"`,
whose final line is exactly `FINAL ANSWER: B 4:3`, does NOT parse to the
answer `B 4:3`: the unanchored regex finds the EARLIER marker first, its
`\s*(.*)$` tail swallows the newline and the whole second line, and the
extracted answer is `A FINAL ANSWER: B 4:3`. -/
theorem final_line_mcq_counterexample :
    (parseResponse doubleMarkerInput).answer = some ("A FINAL ANSWER: B 4:3".data) ∧
    (parseResponse doubleMarkerInput).answer ≠ some ("B 4:3".data) := by
  constructor
  · rfl
  · decide

/-! ### Supporting lemmas for the amended C6 claim

`sepText ls` renders a list of further choice letters as the canonical
comma-separated continuation (so `'A' :: sepText ['C', 'D']` is `A, C, D`);
`adLetters` is the set of characters matched by `[A-D]` under `/i`. -/

def adLetters : List Char := ['A', 'B', 'C', 'D', 'a', 'b', 'c', 'd']

theorem adLetter_facts (c : Char) (h : c ∈ adLetters) :
    isLetterAD c = true ∧ isWsChar c = false := by
  simp [adLetters] at h
  rcases h with rfl | rfl | rfl | rfl | rfl | rfl | rfl | rfl <;>
    exact ⟨by decide, by decide⟩

def sepText : List Char → List Char
  | [] => []
  | c :: rest => ',' :: ' ' :: c :: sepText rest

/-- Greedy `(?:\s*,\s*[A-D])*` consumes a canonical comma-separated label
list in full and stops exactly at a suffix that does not continue the list
(its first non-whitespace character, if any, is not a comma). -/
theorem labelStarAux_sepText (suffix : List Char)
    (hstop : ∀ c r, suffix.dropWhile isWsChar = c :: r → (c == ',') = false) :
    ∀ ls : List Char, (∀ c ∈ ls, c ∈ adLetters) →
    ∀ F, (sepText ls ++ suffix).length < F →
    labelStarAux F (sepText ls ++ suffix) = (sepText ls, suffix) := by
  intro ls
  induction ls with
  | nil =>
    intro _ F hF
    obtain ⟨g, rfl⟩ : ∃ g, F = g + 1 := ⟨F - 1, by omega⟩
    simp only [sepText, List.nil_append, labelStarAux]
    cases hr : suffix.dropWhile isWsChar with
    | nil => simp [hr]
    | cons c1 r2 =>
      have hc := hstop c1 r2 hr
      simp [hr, hc]
  | cons l rest ih =>
    intro hmem F hF
    obtain ⟨g, rfl⟩ : ∃ g, F = g + 1 := ⟨F - 1, by omega⟩
    have hl := adLetter_facts l (hmem l (by simp))
    have hrec : labelStarAux g (sepText rest ++ suffix) = (sepText rest, suffix) := by
      refine ih (fun c hc => hmem c (by simp [hc])) g ?_
      simp [sepText] at hF ⊢
      omega
    simp only [sepText, List.cons_append, labelStarAux]
    simp [List.takeWhile_cons, List.dropWhile_cons, hl.1, hl.2, hrec,
      show isWsChar ',' = false by decide, show isWsChar ' ' = true by decide]

theorem takeWhile_all (p : Char → Bool) :
    ∀ l : List Char, (∀ c ∈ l, p c = true) → l.takeWhile p = l := by
  intro l
  induction l with
  | nil => intro _; rfl
  | cons c cs ih =>
    intro h
    simp [List.takeWhile_cons, h c (by simp), ih (fun x hx => h x (by simp [hx]))]

theorem dropWhile_last_ne_nil (p : Char → Bool) (a : Char) (ha : p a = false) :
    ∀ xs : List Char, (xs ++ [a]).dropWhile p ≠ [] := by
  intro xs
  induction xs with
  | nil => simp [List.dropWhile_cons, ha]
  | cons x xs ih =>
    by_cases hx : p x = true
    · simpa [List.cons_append, List.dropWhile_cons, hx] using ih
    · rw [Bool.not_eq_true] at hx
      simp [List.cons_append, List.dropWhile_cons, hx]

theorem trimL_cons_ne_nil (vh : Char) (vt : List Char) (h : isWsChar vh = false) :
    trimL (vh :: vt) ≠ [] := by
  unfold trimL
  have h1 : (vh :: vt).dropWhile isWsChar = vh :: vt := by
    simp [List.dropWhile_cons, h]
  rw [h1, List.reverse_cons]
  simp only [ne_eq, List.reverse_eq_nil_iff]
  exact dropWhile_last_ne_nil isWsChar vh h vt.reverse

theorem trimL_cons_isEmpty (vh : Char) (vt : List Char) (h : isWsChar vh = false) :
    (trimL (vh :: vt)).isEmpty = false := by
  cases htr : trimL (vh :: vt) with
  | nil => exact absurd htr (trimL_cons_ne_nil vh vt h)
  | cons _ _ => rfl

theorem ciStrip_marker (X : List Char) :
    ciStrip finalAnswerMarker ("FINAL ANSWER: ".data ++ X) = some (' ' :: X) := rfl

theorem ciLeads_marker (X : List Char) :
    ciLeads finalAnswerMarker ("FINAL ANSWER: ".data ++ X) = true := rfl

/-- Shared classification-and-extraction step: when pattern 1 matches at no
position of the prefix but matches the final line, the MCQ branch of
`parseResponse` is taken and the answer comes from these capture groups. -/
theorem parseResponse_p1_line (p line : List Char) (mm : MCQMatch)
    (hlead : ciLeads finalAnswerMarker line = true)
    (hclean : ∀ t ∈ p.tails, t ≠ [] → tryP1 (t ++ line) = none)
    (hline : tryP1 line = some mm) :
    (parseResponse (p ++ line)).answer = some (answerFromMatch mm) ∧
    (parseResponse (p ++ line)).questionType = "multiple_choice" := by
  have hmark : containsCI finalAnswerMarker (p ++ line) = true :=
    containsCI_append_right _ _ _ (containsCI_of_ciLeads _ _ hlead)
  have hp1 : firstMatch tryP1 (p ++ line) = some mm := by
    rw [firstMatch_append tryP1 p line hclean]
    exact firstMatch_at_start tryP1 line mm hline
  have hfind : findMCQMatch (p ++ line) = some mm := by
    simp [findMCQMatch, hp1]
  constructor
  · simp [parseResponse, hmark, parseMCQ, hfind, ParsedAnswer.answer]
  · simp [parseResponse, hmark, parseMCQ_questionType]

/-- Same as `parseResponse_p1_line` for the fallback pattern 2: pattern 1
matches nowhere, pattern 2 matches at no position of the prefix but matches
the final line. -/
theorem parseResponse_p2_line (p line : List Char) (mm : MCQMatch)
    (hlead : ciLeads finalAnswerMarker line = true)
    (hp1none : firstMatch tryP1 (p ++ line) = none)
    (hclean : ∀ t ∈ p.tails, t ≠ [] → tryP2 (t ++ line) = none)
    (hline : tryP2 line = some mm) :
    (parseResponse (p ++ line)).answer = some (answerFromMatch mm) ∧
    (parseResponse (p ++ line)).questionType = "multiple_choice" := by
  have hmark : containsCI finalAnswerMarker (p ++ line) = true :=
    containsCI_append_right _ _ _ (containsCI_of_ciLeads _ _ hlead)
  have hp2 : firstMatch tryP2 (p ++ line) = some mm := by
    rw [firstMatch_append tryP2 p line hclean]
    exact firstMatch_at_start tryP2 line mm hline
  have hfind : findMCQMatch (p ++ line) = some mm := by
    simp [findMCQMatch, hp1none, hp2]
  constructor
  · simp [parseResponse, hmark, parseMCQ, hfind, ParsedAnswer.answer]
  · simp [parseResponse, hmark, parseMCQ_questionType]

/-- Pattern 1 on a final line `FINAL ANSWER: <labels> <value>` captures the
whole comma-separated label list as group 1 and the value as group 2. -/
theorem tryP1_labels_line (l : Char) (ls : List Char) (vh : Char) (vt : List Char)
    (hl : l ∈ adLetters) (hls : ∀ c ∈ ls, c ∈ adLetters)
    (hvh : isWsChar vh = false) (hvc : (vh == ',') = false)
    (hvterm : ∀ c ∈ vh :: vt, isLineTerm c = false) :
    tryP1 ("FINAL ANSWER: ".data ++ ((l :: sepText ls) ++ ' ' :: vh :: vt)) =
      some ⟨l :: sepText ls, some (vh :: vt), none⟩ := by
  have hl' := adLetter_facts l hl
  have e3 : (' ' :: vh :: vt).dropWhile isWsChar = vh :: vt := by
    simp [List.dropWhile_cons, hvh, show isWsChar ' ' = true by decide]
  have e2 : labelStar (sepText ls ++ ' ' :: vh :: vt) = (sepText ls, ' ' :: vh :: vt) := by
    unfold labelStar
    refine labelStarAux_sepText (' ' :: vh :: vt) ?_ ls hls _ (by omega)
    intro c r hcr
    rw [e3] at hcr
    injection hcr with hc _
    subst hc
    exact hvc
  have e4 : (vh :: vt).takeWhile (fun ch => !(isLineTerm ch)) = vh :: vt :=
    takeWhile_all _ _ (fun c hc => by simp [hvterm c hc])
  unfold tryP1
  rw [ciStrip_marker]
  simp [List.dropWhile_cons, List.cons_append, hl'.1, hl'.2, hvh, e2, e4,
    show isWsChar ' ' = true by decide]

/-- The answer string built from a comma-separated label match: the
upper-cased label list joined with the trimmed value. -/
theorem answerFromMatch_labels (l : Char) (ls : List Char) (vh : Char) (vt : List Char)
    (hl : l ∈ adLetters) (hls : ∀ c ∈ ls, c ∈ adLetters)
    (hvh : isWsChar vh = false) :
    answerFromMatch ⟨l :: sepText ls, some (vh :: vt), none⟩ =
      (l :: sepText ls).map Char.toUpper ++ ' ' :: trimL (vh :: vt) := by
  have hl' := adLetter_facts l hl
  have hLS : labelStar (sepText ls) = (sepText ls, []) := by
    unfold labelStar
    have h0 := labelStarAux_sepText [] (by intro c r h; simp at h) ls hls
      ((sepText ls ++ []).length + 1) (by omega)
    simpa using h0
  have hLL : labelListWhole (l :: sepText ls) = true := by
    simp [labelListWhole, hl'.1, hLS]
  have htr := trimL_cons_isEmpty vh vt hvh
  simp [answerFromMatch, hLL, optTruthy, htr]

/-- Pattern 2 on a final line `FINAL ANSWER: <phrase>` captures the whole
phrase as group 1 (groups 2 and 3 undefined). -/
theorem tryP2_phrase_line (wh : Char) (wt : List Char)
    (hwh : isWsChar wh = false)
    (hwterm : ∀ c ∈ wh :: wt, isLineTerm c = false) :
    tryP2 ("FINAL ANSWER: ".data ++ wh :: wt) = some ⟨wh :: wt, none, none⟩ := by
  have e4 : (wh :: wt).takeWhile (fun ch => !(isLineTerm ch)) = wh :: wt :=
    takeWhile_all _ _ (fun c hc => by simp [hwterm c hc])
  unfold tryP2
  rw [ciStrip_marker]
  simp [List.dropWhile_cons, hwh, e4, show isWsChar ' ' = true by decide]

/-- The answer string built from a bare-phrase match whose first character
is not a choice letter: the trimmed phrase itself. -/
theorem answerFromMatch_phrase (wh : Char) (wt : List Char)
    (hAD : isLetterAD wh = false) :
    answerFromMatch ⟨wh :: wt, none, none⟩ = trimL (wh :: wt) := by
  simp [answerFromMatch, labelListWhole, hAD, optTruthy]

/-- C6 amended: on every input whose final line is a `FINAL ANSWER:` line
(the input is `p ++ line` with `p` empty or ending in a newline) and whose
earlier positions the relevant pattern does not match, the parser returns
the multiple-choice variant with the answer extracted from that line.
Part 1 — final line `FINAL ANSWER: B 4:3` yields the answer `B 4:3`
(label `B`, value `4:3`, stored by the source as one string).
Part 2 — one-or-more comma-separated choice letters followed by a
free-value suffix: final line `FINAL ANSWER: L1, ..., Lk value` yields the
upper-cased label list joined with the trimmed value (multi-select support).
Part 3 — a bare phrase (fill-in-the-blank): final line
`FINAL ANSWER: phrase`, with a phrase not starting with a choice letter,
yields the trimmed phrase. -/
theorem final_line_mcq_amended :
    (∀ p : List Char, (p = [] ∨ ∃ q, p = q ++ ['\n']) →
       (∀ t ∈ p.tails, t ≠ [] → tryP1 (t ++ "FINAL ANSWER: B 4:3".data) = none) →
       (parseResponse (p ++ "FINAL ANSWER: B 4:3".data)).answer =
         some ("B 4:3".data) ∧
       (parseResponse (p ++ "FINAL ANSWER: B 4:3".data)).questionType =
         "multiple_choice") ∧
    (∀ (p : List Char) (l : Char) (ls : List Char) (vh : Char) (vt : List Char),
       (p = [] ∨ ∃ q, p = q ++ ['\n']) →
       l ∈ adLetters → (∀ c ∈ ls, c ∈ adLetters) →
       isWsChar vh = false → (vh == ',') = false →
       (∀ c ∈ vh :: vt, isLineTerm c = false) →
       (∀ t ∈ p.tails, t ≠ [] →
          tryP1 (t ++ ("FINAL ANSWER: ".data ++ ((l :: sepText ls) ++ ' ' :: vh :: vt))) = none) →
       (parseResponse (p ++ ("FINAL ANSWER: ".data ++ ((l :: sepText ls) ++ ' ' :: vh :: vt)))).answer =
         some ((l :: sepText ls).map Char.toUpper ++ ' ' :: trimL (vh :: vt)) ∧
       (parseResponse (p ++ ("FINAL ANSWER: ".data ++ ((l :: sepText ls) ++ ' ' :: vh :: vt)))).questionType =
         "multiple_choice") ∧
    (∀ (p : List Char) (wh : Char) (wt : List Char),
       (p = [] ∨ ∃ q, p = q ++ ['\n']) →
       isWsChar wh = false → isLetterAD wh = false →
       (∀ c ∈ wh :: wt, isLineTerm c = false) →
       firstMatch tryP1 (p ++ ("FINAL ANSWER: ".data ++ wh :: wt)) = none →
       (∀ t ∈ p.tails, t ≠ [] → tryP2 (t ++ ("FINAL ANSWER: ".data ++ wh :: wt)) = none) →
       (parseResponse (p ++ ("FINAL ANSWER: ".data ++ wh :: wt))).answer =
         some (trimL (wh :: wt)) ∧
       (parseResponse (p ++ ("FINAL ANSWER: ".data ++ wh :: wt))).questionType =
         "multiple_choice") := by
  refine ⟨?_, ?_, ?_⟩
  · intro p _hp hclean
    have h := parseResponse_p1_line p ("FINAL ANSWER: B 4:3".data)
      ⟨"B".data, some ("4:3".data), none⟩ (by decide) hclean (by decide)
    exact ⟨h.1.trans (by decide), h.2⟩
  · intro p l ls vh vt _hp hl hls hvh hvc hvterm hclean
    have hmm := tryP1_labels_line l ls vh vt hl hls hvh hvc hvterm
    have h := parseResponse_p1_line p
      ("FINAL ANSWER: ".data ++ ((l :: sepText ls) ++ ' ' :: vh :: vt))
      ⟨l :: sepText ls, some (vh :: vt), none⟩ (ciLeads_marker _) hclean hmm
    exact ⟨h.1.trans (congrArg some (answerFromMatch_labels l ls vh vt hl hls hvh)), h.2⟩
  · intro p wh wt _hp hwh hAD hwterm hp1none hclean
    have hmm := tryP2_phrase_line wh wt hwh hwterm
    have h := parseResponse_p2_line p ("FINAL ANSWER: ".data ++ wh :: wt)
      ⟨wh :: wt, none, none⟩ (ciLeads_marker _) hp1none hclean hmm
    exact ⟨h.1.trans (congrArg some (answerFromMatch_phrase wh wt hAD)), h.2⟩

theorem final_line_mcq_amended_witness :
    (parseResponse ("FINAL ANSWER: B 4:3".data)).answer = some ("B 4:3".data) ∧
    (parseResponse ("Reasoning first.\nFINAL ANSWER: B 4:3".data)).answer =
      some ("B 4:3".data) ∧
    (parseResponse ("FINAL ANSWER: A, C True/True".data)).answer =
      some ("A, C True/True".data) ∧
    (parseResponse ("FINAL ANSWER: photosynthesis".data)).answer =
      some ("photosynthesis".data) :=
  ⟨(final_line_mcq_amended.1 [] (Or.inl rfl) (by decide)).1,
   (final_line_mcq_amended.1 ("Reasoning first.\n".data)
      (Or.inr ⟨"Reasoning first.".data, by decide⟩) (by decide)).1,
   ((final_line_mcq_amended.2.1 [] 'A' ['C'] 'T' ("rue/True".data) (Or.inl rfl)
      (by decide) (by decide) (by decide) (by decide) (by decide) (by decide)).1).trans
     (by decide),
   ((final_line_mcq_amended.2.2 [] 'p' ("hotosynthesis".data) (Or.inl rfl)
      (by decide) (by decide) (by decide) (by decide) (by decide)).1).trans
     (by decide)⟩
